import Mathlib

/-
Verification of the imagesauce image-customization lifecycle
(src/ImageSauce/image_customizer.py, src/imagesauce/cli/__init__.py).

The Python code is shallowly embedded: the host filesystem is a map from
path strings to optional file contents, external commands are modelled by
an environment record fixing their outcome, and Python's exception
discipline (Exception vs SystemExit, which `except Exception` does not
catch) is modelled by an explicit error type.
-/

namespace ImageSauce

/-- Substring occurrence test on character lists (helper for `containsSub`). -/
def containsSubAux (pat : List Char) : List Char → Bool
  | [] => pat.isEmpty
  | c :: cs => pat.isPrefixOf (c :: cs) || containsSubAux pat cs

/-- Python's `pat in s` substring test on strings. -/
def containsSub (s pat : String) : Bool := containsSubAux pat.toList s.toList

/-- Accumulating worker for `pySplit`: `acc` holds the current token reversed. -/
def pySplitAux (acc : List Char) : List Char → List String
  | [] => if acc.isEmpty then [] else [String.mk acc.reverse]
  | c :: cs =>
    if c.isWhitespace then
      if acc.isEmpty then pySplitAux [] cs
      else String.mk acc.reverse :: pySplitAux [] cs
    else pySplitAux (c :: acc) cs

/-- Python's `str.split()` with no argument: split on whitespace runs,
dropping empty pieces. -/
def pySplit (s : String) : List String := pySplitAux [] s.toList

/-- Python's `int(s)` on a decimal digit string: the parsed number, or a
parse failure for an empty or non-digit string. -/
def pyToNat (s : String) : Option Nat :=
  let cs := s.toList
  if cs ≠ [] ∧ cs.all (fun c => c.isDigit) then
    some (cs.foldl (fun n c => 10 * n + (c.toNat - 48)) 0)
  else none

/-- Python's `str(x)` on an `Optional[str]`: `str(None)` is the string "None". -/
def pyStrOfOpt : Option String → String
  | none => "None"
  | some s => s

/-- Python's `a or b` for strings: `a` unless `a` is empty (falsy). -/
def pyOr (a b : String) : String := if a = "" then b else a

/-- Stem of a final path component: the name with its last dot-suffix removed,
as in Python `pathlib` (a leading dot does not start a suffix). -/
def nameStem (name : String) : String :=
  let rev := name.toList.reverse
  let sufRev := rev.takeWhile (fun c => c ≠ '.')
  if sufRev.length = rev.length then name
  else
    let stemRev := rev.drop (sufRev.length + 1)
    if stemRev.isEmpty then name
    else String.mk stemRev.reverse

/-- Python `Path.with_suffix`: replace the suffix of the final path component. -/
def withSuffix (p : String) (suffix : String) : String :=
  let parts := p.splitOn "/"
  match parts.getLast? with
  | none => p
  | some name =>
    String.intercalate "/" (parts.dropLast ++ [nameStem name ++ suffix])

/-- Python errors: ordinary exceptions (with message), SystemExit raised by
`exit()` / `sys.exit()` (not caught by `except Exception`), and an exception
raised with `raise ... from cause`. -/
inductive PyErr where
  | exc : String → PyErr
  | systemExit : Nat → PyErr
  | wrapped : String → PyErr → PyErr
deriving DecidableEq, Repr

/-- Whether an error is caught by Python's `except Exception`. -/
def isException : PyErr → Bool
  | .exc _ => true
  | .wrapped _ _ => true
  | .systemExit _ => false

/-- The `str()` of an error, as interpolated into f-strings. -/
def errMsg : PyErr → String
  | .exc m => m
  | .systemExit n => toString n
  | .wrapped m _ => m

/-- Host filesystem: maps a path to the content of the file there, if any. -/
def FS : Type := String → Option String

/-- Write (create or truncate-and-write) a file. -/
def fsSet (fs : FS) (k v : String) : FS := fun p => if p = k then some v else fs p

/-- Remove a file. -/
def fsDel (fs : FS) (k : String) : FS := fun p => if p = k then none else fs p

/-- Content of a file, with a default for a missing file. -/
def fsGetD (fs : FS) (k d : String) : String := (fs k).getD d

/-- Start sector of the "Linux filesystem" partition: second whitespace token of
the first `fdisk -l` output line containing "Linux filesystem"
(`ImageCustomizer._get_partition_offset`, line 85). -/
def findLinuxFsStartSector (fdiskOutput : List String) : Option String :=
  (fdiskOutput.find? (fun line => containsSub line "Linux filesystem")).bind
    (fun line => (pySplit line)[1]?)

/-- The first `fdisk -l` output line containing "Sector size" (line 86). -/
def findSectorSizeLine (fdiskOutput : List String) : Option String :=
  fdiskOutput.find? (fun line => containsSub line "Sector size")

/-- `sector_size_line.split()[3] if sector_size_line else None` (line 87):
`None` when no "Sector size" line was found, the fourth whitespace token when
one was found with enough tokens — and an unhandled IndexError when the line
is present but splits into fewer than four tokens. -/
def sectorSizeToken : Option String → Except String (Option String)
  | none => .ok none
  | some line =>
    match (pySplit line)[3]? with
    | some tok => .ok (some tok)
    | none => .error "IndexError: list index out of range"

/-- `ImageCustomizer._get_partition_offset` (lines 83-93): extract the start
sector (never raises: a line containing "Linux filesystem" has at least two
tokens) and the sector-size token (which may raise IndexError), fail with the
offset RuntimeError if either extracted value is absent (or falsy), else
return `int(start_sector) * int(sector_size)`. -/
def getPartitionOffset (fdiskOutput : List String) : Except String Nat :=
  let startSector := findLinuxFsStartSector fdiskOutput
  match sectorSizeToken (findSectorSizeLine fdiskOutput) with
  | .error e => .error e
  | .ok sectorSize =>
    match startSector, sectorSize with
    | some ss, some sz =>
      if ss = "" ∨ sz = "" then
        .error "Error: Could not determine partition offset!"
      else
        match pyToNat ss, pyToNat sz with
        | some a, some b => .ok (a * b)
        | _, _ => .error "invalid literal for int() with base 10"
    | _, _ => .error "Error: Could not determine partition offset!"

/-- The artifact paths derived in `ImageCustomizer.create_manifest`
(lines 206-212). Note `sbom_log = str(sbom_log) or default`: `str(None)` is
the truthy string "None", so the default never applies. -/
structure ManifestPaths where
  sbomDocumentName : String
  sbomFileName : String
  sbomLog : String
  manifestFile : String
  filelistFile : String
deriving DecidableEq, Repr

/-- Derivation of the artifact paths from the base output path (lines 206-212). -/
def deriveManifestPaths (baseOutputPath : String) (sbomLog : Option String) : ManifestPaths :=
  { sbomDocumentName := baseOutputPath ++ ".sbom"
    sbomFileName := baseOutputPath ++ ".sbom.spdx"
    sbomLog := pyOr (pyStrOfOpt sbomLog) (baseOutputPath ++ ".sbom.log")
    manifestFile := baseOutputPath ++ ".manifest"
    filelistFile := baseOutputPath ++ ".filelist" }

/-- Outcomes and outputs of the external tools invoked by `create_manifest`,
fixed by the (unchanged) mounted root: an `Option String` field is `some msg`
when the corresponding `check=True` call raises `CalledProcessError`. -/
structure ManifestEnv where
  dpkgErr : Option String
  dpkgOut : String
  snapErr : Option String
  snapOut : String
  findErr : Option String
  findOut : String
  sortErr : Option String
  sortFn : String → String
  cpcSbomAvailable : Bool
  snapInstallErr : Option String
  sbomOut : String
  sbomLogOut : String
  sbomRc : Nat

/-- The pre-check loop of `create_manifest` (lines 214-220): for each artifact
file in order, `exit(1)` if it exists without overwrite, remove it if it
exists with overwrite. -/
def collisionChecks (overwrite : Bool) : List String → FS → FS × Option PyErr
  | [], fs => (fs, none)
  | f :: rest, fs =>
    if (fs f).isSome then
      if ¬overwrite then (fs, some (.systemExit 1))
      else collisionChecks overwrite rest (fsDel fs f)
    else collisionChecks overwrite rest fs

/-- `ImageCustomizer.create_manifest` (lines 190-269): derive artifact paths,
run the collision pre-check, write the package manifest (dpkg-query), append
the snap inventory, write and sort the file list, and optionally generate the
SBOM (where a non-zero tool exit causes `exit(1)`). -/
def createManifest (env : ManifestEnv) (baseOutputPath : String) (generateSbom : Bool)
    (sbomLog : Option String) (overwrite : Bool) (fs : FS) : FS × Except PyErr Unit :=
  let P := deriveManifestPaths baseOutputPath sbomLog
  let cc := collisionChecks overwrite [P.manifestFile, P.filelistFile, P.sbomFileName] fs
  match cc.2 with
  | some e => (cc.1, .error e)
  | none =>
    let fs2 := fsSet cc.1 P.manifestFile ""
    match env.dpkgErr with
    | some m => (fs2, .error (.exc m))
    | none =>
      let fs3 := fsSet fs2 P.manifestFile env.dpkgOut
      match env.snapErr with
      | some m => (fs3, .error (.exc m))
      | none =>
        let fs4 := fsSet fs3 P.manifestFile (fsGetD fs3 P.manifestFile "" ++ env.snapOut)
        let fs5 := fsSet fs4 P.filelistFile ""
        match env.findErr with
        | some m => (fs5, .error (.exc m))
        | none =>
          let fs6 := fsSet fs5 P.filelistFile env.findOut
          match env.sortErr with
          | some m => (fs6, .error (.exc m))
          | none =>
            let fs7 := fsSet fs6 P.filelistFile (env.sortFn (fsGetD fs6 P.filelistFile ""))
            if generateSbom then
              match (if env.cpcSbomAvailable then none else env.snapInstallErr) with
              | some m => (fs7, .error (.exc m))
              | none =>
                let fs8 := fsSet fs7 P.sbomFileName ""
                let fs9 := fsSet fs8 P.sbomLog ""
                let fs10 := fsSet fs9 P.sbomFileName env.sbomOut
                let fs11 := fsSet fs10 P.sbomLog env.sbomLogOut
                if env.sbomRc ≠ 0 then (fs11, .error (.systemExit 1))
                else (fs11, .ok ())
            else (fs7, .ok ())

/-- State of the mounted image around `/etc/resolv.conf`: content (if any) of
the resolv.conf path and of its `.bak` sibling. -/
structure ResolvFS where
  resolv : Option String
  backup : Option String
deriving DecidableEq, Repr

/-- Outcomes of the privileged commands used by the DNS shim handling. -/
structure ShimEnv where
  backupCpOk : Bool
  rmOk : Bool
  cpHostOk : Bool
  restoreRmOk : Bool
  restoreMvOk : Bool
  hostResolv : String

/-- `ImageCustomizer._handle_resolv_conf` (lines 110-128): if a resolv.conf
file or symlink exists, try to back it up (`cp -a`), recording success as
`resolv_conf_existed`; remove the original; then copy the host's resolv.conf
into place. Returns the new image state and the recorded flag. -/
def installResolvShim (env : ShimEnv) (fs : ResolvFS) : Except PyErr (ResolvFS × Bool) :=
  if fs.resolv.isSome then
    let st := if env.backupCpOk then ({ fs with backup := fs.resolv }, true) else (fs, false)
    if ¬env.rmOk then .error (.exc "CalledProcessError: rm")
    else
      let fs2 := { st.1 with resolv := none }
      if ¬env.cpHostOk then .error (.exc "CalledProcessError: cp")
      else .ok ({ fs2 with resolv := some env.hostResolv }, st.2)
  else
    if ¬env.cpHostOk then .error (.exc "CalledProcessError: cp")
    else .ok ({ fs with resolv := some env.hostResolv }, false)

/-- `ImageCustomizer._restore_resolv_conf` (lines 130-140): if the flag is set
and the backup file is present, remove the injected file and move the backup
back; otherwise just remove the injected file. -/
def restoreResolvConf (env : ShimEnv) (existed : Bool) (fs : ResolvFS) : Except PyErr ResolvFS :=
  if existed ∧ fs.backup.isSome then
    if ¬env.restoreRmOk then .error (.exc "CalledProcessError: rm")
    else if ¬env.restoreMvOk then .error (.exc "CalledProcessError: mv")
    else .ok { resolv := fs.backup, backup := none }
  else
    if ¬env.restoreRmOk then .error (.exc "CalledProcessError: rm")
    else .ok { fs with resolv := none }

/-- Constructor arguments of `ImageCustomizer.__init__` (lines 17-25). -/
structure InitArgs where
  inputImageFile : String
  outputImagePath : String
  targetMountPoint : String
  chimgConfigFile : String
  overwrite : Bool

/-- The `ImageCustomizer` object fields that are fixed at construction
(lines 36-43); `input_image_type` and `resolv_conf_existed` are mutated during
the run and live in `World`. -/
structure Customizer where
  inputImageFile : String
  outputImagePath : String
  targetMountPoint : String
  chimgConfigFile : String
  overwrite : Bool
  modifiedImageFile : String
  outputFilesName : String

/-- `ImageCustomizer.__init__` (lines 17-51): record the paths, derive the
working image path (`with_suffix(".modifying")`) and the base output-files
name (`with_suffix("")`), then fail with `FileExistsError` when the output
path exists and overwrite is not set. No filesystem write is performed. -/
def initCustomizer (a : InitArgs) (fs : FS) : FS × Except PyErr Customizer :=
  let c : Customizer :=
    { inputImageFile := a.inputImageFile
      outputImagePath := a.outputImagePath
      targetMountPoint := a.targetMountPoint
      chimgConfigFile := a.chimgConfigFile
      overwrite := a.overwrite
      modifiedImageFile := withSuffix a.inputImageFile ".modifying"
      outputFilesName := withSuffix a.outputImagePath "" }
  if (fs a.outputImagePath).isSome ∧ ¬a.overwrite then
    (fs, .error (.exc "Error: Output image file already exists! Use overwrite=True to overwrite."))
  else (fs, .ok c)

/-- Mutable state of one customization run: the host filesystem, whether the
image is loop-mounted, the shim bookkeeping, and the customizer attributes
mutated during the run (`input_image_type`, `resolv_conf_existed`). -/
structure World where
  fs : FS
  mounted : Bool
  shimInstalled : Bool
  shimRestoreRan : Bool
  inputImageType : String
  resolvConfExisted : Bool

/-- Outcomes of the external commands of one lifecycle run. -/
structure Env where
  inputExists : Bool
  fileInfoQcow : Bool
  stageOk : Bool
  fdiskOutput : List String
  mountOk : Bool
  resolvLexists : Bool
  backupCpOk : Bool
  installShimOk : Bool
  configExists : Bool
  rootfsExists : Bool
  delegateError : Option String
  menv : ManifestEnv
  restoreShimOk : Bool
  umountOk : Bool
  convertBackOk : Bool
  convertFn : String → String
  workingRemoveOk : Bool

/-- Result of a lifecycle step: the updated world together with either normal
return or a raised error. -/
def StepR : Type := World × Except PyErr Unit

/-- Normal return. -/
def wok (w : World) : StepR := (w, .ok ())

/-- A raised error, with the world as mutated so far. -/
def werr (w : World) (e : PyErr) : StepR := (w, .error e)

/-- Sequencing of lifecycle steps: a raised error skips the continuation. -/
def andThenW (r : StepR) (f : World → StepR) : StepR :=
  match r with
  | (w, .ok _) => f w
  | (w, .error e) => (w, .error e)

/-- `ImageCustomizer._remove_existing_modified_image` (lines 59-62): remove
the working image file if it exists (`os.remove` raises on failure). -/
def removeExistingModifiedImage (c : Customizer) (env : Env) (w : World) : StepR :=
  if (w.fs c.modifiedImageFile).isSome then
    if env.workingRemoveOk then wok { w with fs := fsDel w.fs c.modifiedImageFile }
    else werr w (.exc "OSError: cannot remove modified image file")
  else wok w

/-- `ImageCustomizer._validate_input_image_exists` (lines 64-66). -/
def validateInputImage (c : Customizer) (env : Env) (w : World) : StepR :=
  if ¬env.inputExists then
    werr w (.exc ("Error: Input image file " ++ c.inputImageFile ++ " not found!"))
  else wok w

/-- `ImageCustomizer._convert_or_copy_image` (lines 68-81): detect the input
format with `file`, convert qcow2 to raw (or copy a raw image) into the
working path, and record `input_image_type`. -/
def convertOrCopyImage (c : Customizer) (env : Env) (w : World) : StepR :=
  if ¬env.stageOk then werr w (.exc "CalledProcessError: staging")
  else
    wok { w with
          fs := fsSet w.fs c.modifiedImageFile "staged"
          inputImageType := if env.fileInfoQcow then "qcow2" else "raw" }

/-- `ImageCustomizer._mount_image` (lines 95-108): loop-mount the working
image at the given byte offset; raise on a non-zero mount exit. -/
def mountImage (env : Env) (offset : Nat) (w : World) : StepR :=
  if ¬env.mountOk then werr w (.exc "Error: Failed to mount the image.")
  else wok { w with mounted := true }

/-- `ImageCustomizer._handle_resolv_conf` at the lifecycle level (lines
110-128): record `resolv_conf_existed` (true exactly when a resolv.conf
existed and its backup succeeded) and install the host resolv.conf shim.
Content-level behavior is modelled by `installResolvShim`. -/
def handleResolvConfStep (env : Env) (w : World) : StepR :=
  let w1 := { w with resolvConfExisted := env.resolvLexists && env.backupCpOk }
  if env.installShimOk then wok { w1 with shimInstalled := true }
  else werr w1 (.exc "CalledProcessError: resolv.conf shim install")

/-- `ImageCustomizer.setup` (lines 171-180): ensure paths, drop a stale
working image, validate the input, stage the working copy, locate the
partition offset, mount, and install the DNS shim. -/
def setupM (c : Customizer) (env : Env) (w : World) : StepR :=
  andThenW (removeExistingModifiedImage c env w) (fun w1 =>
  andThenW (validateInputImage c env w1) (fun w2 =>
  andThenW (convertOrCopyImage c env w2) (fun w3 =>
  match getPartitionOffset env.fdiskOutput with
  | .error m => werr w3 (.exc m)
  | .ok offset =>
    andThenW (mountImage env offset w3) (fun w4 =>
    handleResolvConfStep env w4))))

/-- The `argparse.Namespace` built by `ImageCustomizer.main` (lines 304-310). -/
structure ChrootfsArgs where
  config : String
  rootfspath : String
  outputFilesName : String
  generateSbom : Bool
  overwrite : Bool

/-- The arguments `main` passes to `do_chrootfs`: `generate_sbom` is the
literal `False` (line 308). -/
def mainArgs (c : Customizer) : ChrootfsArgs :=
  { config := c.chimgConfigFile
    rootfspath := c.targetMountPoint
    outputFilesName := c.outputFilesName
    generateSbom := false
    overwrite := c.overwrite }

/-- `ImageCustomizer.do_chrootfs` (lines 272-298): `sys.exit(1)` on a missing
config or rootfs path, invoke the chimg delegate (`Chroot.apply`), enforce the
output-files-name requirement, then generate the manifest artifacts. -/
def doChrootfs (c : Customizer) (env : Env) (args : ChrootfsArgs) (w : World) : StepR :=
  if ¬env.configExists then werr w (.systemExit 1)
  else if ¬env.rootfsExists then werr w (.systemExit 1)
  else
    match env.delegateError with
    | some m => werr w (.exc m)
    | none =>
      if (args.generateSbom || args.overwrite) && args.outputFilesName = "" then
        werr w (.systemExit 1)
      else if args.outputFilesName ≠ "" then
        match createManifest env.menv args.outputFilesName args.generateSbom none
            args.overwrite w.fs with
        | (fs1, .ok _) => wok { w with fs := fs1 }
        | (fs1, .error e) => werr { w with fs := fs1 } e
      else wok w

/-- `ImageCustomizer._restore_resolv_conf` at the lifecycle level: the restore
step runs (recorded by `shimRestoreRan`); its commands may fail. -/
def restoreResolvConfStep (env : Env) (w : World) : StepR :=
  let w1 := { w with shimRestoreRan := true }
  if env.restoreShimOk then wok w1
  else werr w1 (.exc "CalledProcessError: resolv.conf restore")

/-- `ImageCustomizer._unmount_image` (lines 142-145): `sudo umount` with
`check=True` (so a failure raises `CalledProcessError`), then a brief sleep. -/
def unmountImage (env : Env) (w : World) : StepR :=
  if ¬env.umountOk then werr w (.exc "CalledProcessError: umount")
  else wok { w with mounted := false }

/-- `ImageCustomizer._produce_final_image` (lines 147-169): remove a
pre-existing output file, convert the working image back to qcow2 (or copy it
verbatim if the input was raw), then `os.remove` the working image file —
which raises if removal fails, before the exists-check warning. -/
def produceFinalImage (c : Customizer) (env : Env) (w : World) : StepR :=
  let fs0 := if (w.fs c.outputImagePath).isSome then fsDel w.fs c.outputImagePath else w.fs
  if w.inputImageType = "qcow2" then
    if ¬env.convertBackOk then werr { w with fs := fs0 } (.exc "CalledProcessError: qemu-img")
    else
      let fs1 := fsSet fs0 c.outputImagePath (env.convertFn (fsGetD fs0 c.modifiedImageFile ""))
      if (fs1 c.modifiedImageFile).isNone then
        werr { w with fs := fs1 } (.exc "FileNotFoundError: modified image file")
      else if ¬env.workingRemoveOk then
        werr { w with fs := fs1 } (.exc "OSError: cannot remove modified image file")
      else wok { w with fs := fsDel fs1 c.modifiedImageFile }
  else
    if ¬env.convertBackOk then werr { w with fs := fs0 } (.exc "OSError: copy failed")
    else
      let fs1 := fsSet fs0 c.outputImagePath (fsGetD fs0 c.modifiedImageFile "")
      if (fs1 c.modifiedImageFile).isNone then
        werr { w with fs := fs1 } (.exc "FileNotFoundError: modified image file")
      else if ¬env.workingRemoveOk then
        werr { w with fs := fs1 } (.exc "OSError: cannot remove modified image file")
      else wok { w with fs := fsDel fs1 c.modifiedImageFile }

/-- `ImageCustomizer.create_final_image` (lines 182-187): restore the shim,
unmount, and produce the final image. -/
def createFinalImageM (c : Customizer) (env : Env) (w : World) : StepR :=
  andThenW (restoreResolvConfStep env w) (fun w1 =>
  andThenW (unmountImage env w1) (fun w2 =>
  produceFinalImage c env w2))

/-- `ImageCustomizer.main` (lines 300-321): run `setup`, then `do_chrootfs`
under `try/except Exception` — on a caught exception, unmount, remove the
working image, and re-raise `RuntimeError(f"Chimg logic failed: ...") from e`;
a `SystemExit` is not caught and propagates without recovery. On success, run
`create_final_image`. -/
def mainM (c : Customizer) (env : Env) (w : World) : StepR :=
  andThenW (setupM c env w) (fun w0 =>
  match doChrootfs c env (mainArgs c) w0 with
  | (w1, .ok _) => createFinalImageM c env w1
  | (w1, .error e) =>
    if isException e then
      match unmountImage env w1 with
      | (w2, .error e2) => werr w2 e2
      | (w2, .ok _) =>
        match removeExistingModifiedImage c env w2 with
        | (w3, .error e3) => werr w3 e3
        | (w3, .ok _) => werr w3 (.wrapped ("Chimg logic failed: " ++ errMsg e) e)
    else werr w1 e)

/-- The filesystem produced by a successful `create_manifest` run with
overwrite: each artifact holds the content determined by the mounted root,
written in program order (the SBOM log is written last, so it wins on a path
collision); with no SBOM requested the SBOM file path is left removed. -/
def manifestNF (env : ManifestEnv) (P : ManifestPaths) (gs : Bool) (fs : FS) : FS :=
  fun p =>
    if gs ∧ p = P.sbomLog then some env.sbomLogOut
    else if gs ∧ p = P.sbomFileName then some env.sbomOut
    else if p = P.filelistFile then some (env.sortFn env.findOut)
    else if p = P.manifestFile then some (env.dpkgOut ++ env.snapOut)
    else if p = P.sbomFileName then none
    else fs p

/-- The world after a successful `setup` run from a state with no stale
working image: the working copy is staged, the image is mounted, the shim is
installed, and the detected format and backup flag are recorded. -/
def setupWorld (c : Customizer) (env : Env) (w : World) : World :=
  { w with
    fs := fsSet w.fs c.modifiedImageFile "staged"
    mounted := true
    shimInstalled := true
    inputImageType := if env.fileInfoQcow then "qcow2" else "raw"
    resolvConfExisted := env.resolvLexists && env.backupCpOk }

/-- Sample `fdisk -l` output: a GPT "Linux filesystem" partition starting at
sector 2048 with 512-byte logical sectors. -/
def sampleFdisk : List String :=
  ["Disk in.modifying: 2 GiB, 2147483648 bytes, 4194304 sectors",
   "Sector size (logical/physical): 512 bytes / 512 bytes",
   "in.modifying1 2048 4194270 4192223 2G Linux filesystem"]

/-- Sample `fdisk -l` output whose "Sector size" line is present but
truncated to two tokens, so `sector_size_line.split()[3]` raises IndexError
even though the partition entry itself is fine. -/
def truncatedFdisk : List String :=
  ["Sector size",
   "in.modifying1 2048 4194270 4192223 2G Linux filesystem"]

/-- A manifest environment in which every external tool succeeds. -/
def menvGood : ManifestEnv :=
  { dpkgErr := none
    dpkgOut := "pkg-a 1.0\npkg-b 2.0\n"
    snapErr := none
    snapOut := "snap-c 3.0\n"
    findErr := none
    findOut := "./etc\n./usr\n"
    sortErr := none
    sortFn := id
    cpcSbomAvailable := true
    snapInstallErr := none
    sbomOut := "spdx-doc"
    sbomLogOut := "sbom-log"
    sbomRc := 0 }

/-- A lifecycle environment in which every external command succeeds. -/
def envGood : Env :=
  { inputExists := true
    fileInfoQcow := true
    stageOk := true
    fdiskOutput := sampleFdisk
    mountOk := true
    resolvLexists := true
    backupCpOk := true
    installShimOk := true
    configExists := true
    rootfsExists := true
    delegateError := none
    menv := menvGood
    restoreShimOk := true
    umountOk := true
    convertBackOk := true
    convertFn := id
    workingRemoveOk := true }

/-- An environment in which the customization delegate raises. -/
def envDelegateFail : Env := { envGood with delegateError := some "boom" }

/-- An environment in which the delegate raises and the recovery unmount
command also fails. -/
def envUmountFail : Env := { envDelegateFail with umountOk := false }

/-- An environment in which `os.remove` of the working image fails. -/
def envNoRemove : Env := { envGood with workingRemoveOk := false }

/-- A concrete customizer (as built by `__init__` from input "in.img",
output "out.img", mount point "mnt", config "cfg.yaml", overwrite false). -/
def cSample : Customizer :=
  { inputImageFile := "in.img"
    outputImagePath := "out.img"
    targetMountPoint := "mnt"
    chimgConfigFile := "cfg.yaml"
    overwrite := false
    modifiedImageFile := "in.modifying"
    outputFilesName := "out" }

/-- An initial world whose filesystem holds only the input image and a stale
manifest artifact at "out.manifest". -/
def wSample : World :=
  { fs := fun p => if p = "in.img" then some "qcow2-bytes"
                   else if p = "out.manifest" then some "old" else none
    mounted := false
    shimInstalled := false
    shimRestoreRan := false
    inputImageType := ""
    resolvConfExisted := false }

/-- An initial world whose filesystem holds only the input image. -/
def wClean : World :=
  { fs := fun p => if p = "in.img" then some "qcow2-bytes" else none
    mounted := false
    shimInstalled := false
    shimRestoreRan := false
    inputImageType := ""
    resolvConfExisted := false }

/-- A world mid-run, just before `_produce_final_image`: working image staged,
a pre-existing file at the output path. -/
def wFinalize : World :=
  { fs := fun p => if p = "in.modifying" then some "raw-bytes"
                   else if p = "out.img" then some "old-output" else none
    mounted := false
    shimInstalled := true
    shimRestoreRan := true
    inputImageType := "qcow2"
    resolvConfExisted := false }

lemma string_data_append (a b : String) : (a ++ b).data = a.data ++ b.data := by
  cases a
  cases b
  rfl

lemma string_append_right_cancel {s a b : String} (h : s ++ a = s ++ b) : a = b := by
  have h2 := congrArg String.data h
  rw [string_data_append, string_data_append] at h2
  have h3 := List.append_cancel_left h2
  exact congrArg String.mk h3

lemma derived_ne {base a b : String} (hab : a ≠ b) : base ++ a ≠ base ++ b :=
  fun h => hab (string_append_right_cancel h)

lemma collisionChecks_true_snd (l : List String) (fs : FS) :
    (collisionChecks true l fs).2 = none := by
  induction l generalizing fs with
  | nil => rfl
  | cons f rest ih =>
    unfold collisionChecks
    by_cases h : (fs f).isSome
    · simp [h, ih]
    · simp [h, ih]

lemma collisionChecks_true_fst (l : List String) (fs : FS) (p : String) :
    (collisionChecks true l fs).1 p = if p ∈ l then none else fs p := by
  induction l generalizing fs with
  | nil => simp [collisionChecks]
  | cons f rest ih =>
    unfold collisionChecks
    by_cases h : (fs f).isSome
    · rw [if_pos h, if_neg (not_not_intro rfl), ih]
      by_cases hpf : p = f
      · subst hpf
        by_cases hpr : p ∈ rest <;> simp [hpr, fsDel]
      · by_cases hpr : p ∈ rest <;> simp [hpf, hpr, fsDel]
    · rw [if_neg h, ih]
      by_cases hpf : p = f
      · subst hpf
        have hn : fs p = none := Option.not_isSome_iff_eq_none.mp h
        by_cases hpr : p ∈ rest <;> simp [hpr, hn]
      · by_cases hpr : p ∈ rest <;> simp [hpf, hpr]

lemma collisionChecks_fst_ne (ow : Bool) (l : List String) (fs : FS) (p : String)
    (hp : p ∉ l) : (collisionChecks ow l fs).1 p = fs p := by
  induction l generalizing fs with
  | nil => rfl
  | cons f rest ih =>
    have hpf : p ≠ f := fun h => hp (h ▸ List.mem_cons_self f rest)
    have hpr : p ∉ rest := fun h => hp (List.mem_cons_of_mem f h)
    unfold collisionChecks
    by_cases h : (fs f).isSome
    · by_cases how : ow
      · rw [if_pos h, if_neg (not_not_intro how), ih _ hpr]
        simp [fsDel, hpf]
      · rw [if_pos h, if_pos how]
    · rw [if_neg h, ih _ hpr]

lemma collisionChecks_fst_none (ow : Bool) (l : List String) (fs : FS) (p : String)
    (hp : fs p = none) : (collisionChecks ow l fs).1 p = none := by
  induction l generalizing fs with
  | nil => exact hp
  | cons f rest ih =>
    unfold collisionChecks
    by_cases h : (fs f).isSome
    · by_cases how : ow
      · rw [if_pos h, if_neg (not_not_intro how)]
        exact ih _ (by simp [fsDel, hp])
      · rw [if_pos h, if_pos how]
        exact hp
    · rw [if_neg h]
      exact ih _ hp

lemma createManifest_preserves (env : ManifestEnv) (base : String) (log : Option String)
    (ow : Bool) (fs : FS) (p : String)
    (h1 : p ≠ base ++ ".manifest") (h2 : p ≠ base ++ ".filelist")
    (h3 : p ≠ base ++ ".sbom.spdx") :
    (createManifest env base false log ow fs).1 p = fs p := by
  have hcc : (collisionChecks ow
      [base ++ ".manifest", base ++ ".filelist", base ++ ".sbom.spdx"] fs).1 p = fs p :=
    collisionChecks_fst_ne _ _ _ _ (by simp [h1, h2, h3])
  unfold createManifest
  simp only [deriveManifestPaths]
  split
  · simpa using hcc
  · cases hd : env.dpkgErr with
    | some m => simpa [fsSet, h1] using hcc
    | none =>
      cases hs : env.snapErr with
      | some m => simpa [fsSet, h1] using hcc
      | none =>
        cases hf : env.findErr with
        | some m => simpa [fsSet, h1, h2] using hcc
        | none =>
          cases ho : env.sortErr with
          | some m => simpa [fsSet, h1, h2] using hcc
          | none => simpa [fsSet, h1, h2] using hcc

lemma createManifest_overwrite_nf (env : ManifestEnv) (base : String) (log : Option String)
    (gs : Bool) (fs : FS)
    (h1 : env.dpkgErr = none) (h2 : env.snapErr = none)
    (h3 : env.findErr = none) (h4 : env.sortErr = none)
    (h5 : gs = true → (if env.cpcSbomAvailable then none else env.snapInstallErr) = none)
    (h6 : gs = true → env.sbomRc = 0) :
    createManifest env base gs log true fs =
      (manifestNF env (deriveManifestPaths base log) gs fs, Except.ok ()) := by
  have hmf : (base ++ ".manifest") ≠ (base ++ ".filelist") := derived_ne (by decide)
  have hms : (base ++ ".manifest") ≠ (base ++ ".sbom.spdx") := derived_ne (by decide)
  have hfls : (base ++ ".filelist") ≠ (base ++ ".sbom.spdx") := derived_ne (by decide)
  have hsnd := collisionChecks_true_snd
    [base ++ ".manifest", base ++ ".filelist", base ++ ".sbom.spdx"] fs
  cases hgs : gs with
  | false =>
    simp only [createManifest, deriveManifestPaths, manifestNF, hsnd, h1, h2, h3, h4,
      false_and, if_false, Bool.false_eq_true, ite_false]
    congr 1
    funext p
    by_cases hpfl : p = base ++ ".filelist"
    · simp [manifestNF, fsSet, fsGetD, hpfl, hmf, hfls]
    · by_cases hpm : p = base ++ ".manifest"
      · simp [manifestNF, fsSet, fsGetD, hpm, hpfl, hmf, hms, Ne.symm hmf]
      · by_cases hps : p = base ++ ".sbom.spdx"
        · simp [manifestNF, fsSet, fsGetD, hps, hpfl, hpm, Ne.symm hms, Ne.symm hfls,
            collisionChecks_true_fst]
        · simp [manifestNF, fsSet, fsGetD, hpfl, hpm, hps]
          exact collisionChecks_fst_ne _ _ _ _ (by simp [hpm, hpfl, hps])
  | true =>
    simp only [createManifest, deriveManifestPaths, manifestNF, hsnd, h1, h2, h3, h4,
      h5 hgs, h6 hgs, true_and, if_true, ite_true, ne_eq, not_true_eq_false, if_false,
      ite_false]
    congr 1
    funext p
    by_cases hpl : p = pyOr (pyStrOfOpt log) (base ++ ".sbom.log")
    · subst hpl
      simp [manifestNF, fsSet, fsGetD]
    · by_cases hps : p = base ++ ".sbom.spdx"
      · subst hps
        simp [manifestNF, fsSet, fsGetD, hpl]
      · by_cases hpfl : p = base ++ ".filelist"
        · subst hpfl
          simp [manifestNF, fsSet, fsGetD, hpl, hps, Ne.symm hmf, hfls]
        · by_cases hpm : p = base ++ ".manifest"
          · subst hpm
            simp [manifestNF, fsSet, fsGetD, hpl, hps, hpfl, hmf, hms]
          · simp [manifestNF, fsSet, fsGetD, hpl, hps, hpfl, hpm]
            exact collisionChecks_fst_ne _ _ _ _ (by simp [hpm, hpfl, hps])

lemma manifestNF_idem (env : ManifestEnv) (P : ManifestPaths) (gs : Bool) (fs : FS) :
    manifestNF env P gs (manifestNF env P gs fs) = manifestNF env P gs fs := by
  funext p
  unfold manifestNF
  by_cases c1 : gs = true ∧ p = P.sbomLog
  · simp [c1]
  · by_cases c2 : gs = true ∧ p = P.sbomFileName
    · simp [c1, c2]
    · by_cases c3 : p = P.filelistFile
      · simp [c1, c2, c3]
      · by_cases c4 : p = P.manifestFile
        · simp [c1, c2, c3, c4]
        · by_cases c5 : p = P.sbomFileName
          · simp [c1, c2, c3, c4, c5]
          · simp [c1, c2, c3, c4, c5]

lemma setup_ok (c : Customizer) (env : Env) (w : World) (off : Nat)
    (hwork : w.fs c.modifiedImageFile = none)
    (hin : env.inputExists = true) (hst : env.stageOk = true)
    (hoff : getPartitionOffset env.fdiskOutput = Except.ok off)
    (hm : env.mountOk = true) (hshim : env.installShimOk = true) :
    setupM c env w = (setupWorld c env w, Except.ok ()) := by
  unfold setupM removeExistingModifiedImage validateInputImage convertOrCopyImage
    mountImage handleResolvConfStep andThenW wok werr setupWorld
  simp [hwork, hin, hst, hoff, hm, hshim]

lemma setup_offset_error (c : Customizer) (env : Env) (w : World) (m : String)
    (hwork : w.fs c.modifiedImageFile = none)
    (hin : env.inputExists = true) (hst : env.stageOk = true)
    (hoff : getPartitionOffset env.fdiskOutput = Except.error m) :
    (setupM c env w).2 = Except.error (.exc m) ∧
    (setupM c env w).1.mounted = w.mounted := by
  unfold setupM removeExistingModifiedImage validateInputImage convertOrCopyImage
    andThenW wok werr
  simp [hwork, hin, hst, hoff]

lemma produceFinalImage_shimRestoreRan (c : Customizer) (env : Env) (w : World) :
    ((produceFinalImage c env w).1).shimRestoreRan = w.shimRestoreRan := by
  unfold produceFinalImage werr wok
  split_ifs <;> first
    | rfl
    | (dsimp only
       split_ifs <;> rfl)

lemma createFinalImage_restoreRan (c : Customizer) (env : Env) (w : World) :
    ((createFinalImageM c env w).1).shimRestoreRan = true := by
  unfold createFinalImageM restoreResolvConfStep andThenW wok werr
  by_cases h1 : env.restoreShimOk
  · simp only [h1, if_true]
    unfold unmountImage wok werr
    by_cases h2 : env.umountOk
    · simp only [h2, not_true_eq_false, if_false, ite_false]
      rw [produceFinalImage_shimRestoreRan]
    · simp [h2]
  · simp [h1]

lemma doChrootfs_delegate_fail (c : Customizer) (env : Env) (args : ChrootfsArgs)
    (w : World) (m : String)
    (hc : env.configExists = true) (hr : env.rootfsExists = true)
    (hd : env.delegateError = some m) :
    doChrootfs c env args w = (w, Except.error (.exc m)) := by
  unfold doChrootfs werr
  simp [hc, hr, hd]

lemma doChrootfs_fs_preserves (c : Customizer) (env : Env) (args : ChrootfsArgs)
    (w : World) (p : String)
    (hgs : args.generateSbom = false)
    (h1 : p ≠ args.outputFilesName ++ ".manifest")
    (h2 : p ≠ args.outputFilesName ++ ".filelist")
    (h3 : p ≠ args.outputFilesName ++ ".sbom.spdx") :
    ((doChrootfs c env args w).1).fs p = w.fs p := by
  unfold doChrootfs werr wok
  by_cases hc : env.configExists
  · by_cases hr : env.rootfsExists
    · cases hd : env.delegateError with
      | some m => simp [hc, hr, hd]
      | none =>
        by_cases hofn : args.outputFilesName = ""
        · by_cases hgow : (args.generateSbom || args.overwrite)
          · simp [hc, hr, hd, hofn, hgow]
          · simp [hc, hr, hd, hofn, hgow]
        · have hpres := createManifest_preserves env.menv args.outputFilesName none
            args.overwrite w.fs p h1 h2 h3
          rw [← hgs] at hpres
          rcases hcm : createManifest env.menv args.outputFilesName args.generateSbom none
            args.overwrite w.fs with ⟨fs1, r⟩
          rw [hcm] at hpres
          simp only [hc, hr, hd, hofn, hcm, not_true_eq_false, if_false, ite_false,
            ne_eq, not_false_eq_true, if_true, ite_true]
          cases r with
          | ok a => simpa using hpres
          | error e => simpa using hpres
    · simp [hc, hr]
  · simp [hc]

/-- C4 (amended): the partition locator returns the byte offset
startSector * sectorSize computed from the start sector of the "Linux
filesystem" entry and the logical sector size (sector 2048 with 512-byte
sectors gives 1048576); it raises the "could not determine partition offset"
error whenever either value is absent, provided the absence is not a present
but truncated "Sector size" line — on such a line `split()[3]` raises an
unhandled IndexError instead. Either way the failure is raised in `setup`
before any mount is attempted (the world stays unmounted). -/
theorem c4_partition_offset :
    (∀ fdiskOutput sa sb a b,
        findLinuxFsStartSector fdiskOutput = some sa →
        sectorSizeToken (findSectorSizeLine fdiskOutput) = Except.ok (some sb) →
        pyToNat sa = some a → pyToNat sb = some b →
        getPartitionOffset fdiskOutput = Except.ok (a * b)) ∧
    (∀ fdiskOutput sizeOpt,
        sectorSizeToken (findSectorSizeLine fdiskOutput) = Except.ok sizeOpt →
        (findLinuxFsStartSector fdiskOutput = none ∨ sizeOpt = none) →
        getPartitionOffset fdiskOutput =
          Except.error "Error: Could not determine partition offset!") ∧
    (∀ fdiskOutput e,
        sectorSizeToken (findSectorSizeLine fdiskOutput) = Except.error e →
        getPartitionOffset fdiskOutput = Except.error e) ∧
    getPartitionOffset sampleFdisk = Except.ok 1048576 ∧
    (∀ c env w m,
        w.fs c.modifiedImageFile = none → w.mounted = false →
        env.inputExists = true → env.stageOk = true →
        getPartitionOffset env.fdiskOutput = Except.error m →
        (setupM c env w).2 = Except.error (.exc m) ∧
        (setupM c env w).1.mounted = false) := by
  refine ⟨?_, ?_, ?_, ?_, ?_⟩
  · intro out sa sb a b hsa hsz ha hb
    have hsa0 : ¬sa = "" := by
      intro h
      rw [h, show pyToNat "" = none from rfl] at ha
      exact Option.noConfusion ha
    have hsb0 : ¬sb = "" := by
      intro h
      rw [h, show pyToNat "" = none from rfl] at hb
      exact Option.noConfusion hb
    simp only [getPartitionOffset, hsa, hsz]
    rw [if_neg (by simp [hsa0, hsb0])]
    simp only [ha, hb]
  · intro out sizeOpt hok hcase
    rcases hcase with h | h
    · simp only [getPartitionOffset, hok, h]
    · subst h
      cases hfl : findLinuxFsStartSector out with
      | none => simp only [getPartitionOffset, hok, hfl]
      | some sa => simp only [getPartitionOffset, hok, hfl]
  · intro out e he
    simp only [getPartitionOffset, he]
  · rfl
  · intro c env w m hw hmt hi hs hoff
    obtain ⟨h1, h2⟩ := setup_offset_error c env w m hw hi hs hoff
    exact ⟨h1, by rw [h2, hmt]⟩

/-- Witness for C4: the sample fdisk output yields offset 2048 * 512 = 1048576;
an output with no matching lines fails with the offset error; a truncated
"Sector size" line raises the IndexError; and `setup` on an empty fdisk
output raises before mounting. -/
theorem c4_partition_offset_witness :
    getPartitionOffset sampleFdisk = Except.ok (2048 * 512) ∧
    getPartitionOffset ["no partitions here"] =
      Except.error "Error: Could not determine partition offset!" ∧
    getPartitionOffset truncatedFdisk =
      Except.error "IndexError: list index out of range" ∧
    (setupM cSample { envGood with fdiskOutput := [] } wClean).2 =
      Except.error (.exc "Error: Could not determine partition offset!") ∧
    (setupM cSample { envGood with fdiskOutput := [] } wClean).1.mounted = false := by
  refine ⟨c4_partition_offset.1 sampleFdisk "2048" "512" 2048 512 rfl rfl rfl rfl,
    c4_partition_offset.2.1 ["no partitions here"] none rfl (Or.inl rfl),
    c4_partition_offset.2.2.1 truncatedFdisk "IndexError: list index out of range" rfl,
    ?_, ?_⟩
  · exact (c4_partition_offset.2.2.2.2 cSample { envGood with fdiskOutput := [] } wClean _
      rfl rfl rfl rfl rfl).1
  · exact (c4_partition_offset.2.2.2.2 cSample { envGood with fdiskOutput := [] } wClean _
      rfl rfl rfl rfl rfl).2

/-- C4 counterexample: on an output whose "Sector size" line is present but
truncated (so the sector-size value is absent from the output), the code
raises an unhandled IndexError from `sector_size_line.split()[3]`, not the
documented "could not determine partition offset" error — refuting the
claim's universal error clause as stated. -/
theorem c4_truncated_sector_line_counterexample :
    getPartitionOffset truncatedFdisk =
      Except.error "IndexError: list index out of range" ∧
    getPartitionOffset truncatedFdisk ≠
      Except.error "Error: Could not determine partition offset!" := by
  refine ⟨rfl, ?_⟩
  intro h
  rw [show getPartitionOffset truncatedFdisk =
      Except.error "IndexError: list index out of range" from rfl] at h
  exact absurd (Except.error.inj h) (by decide)

/-- C5: construction fails with the output-collision precondition error
exactly when the output path exists and overwrite is false, performing no
filesystem mutation; otherwise construction succeeds (also without mutation). -/
theorem c5_init_output_collision :
    (∀ a fs, (fs a.outputImagePath).isSome = true → a.overwrite = false →
      (initCustomizer a fs).1 = fs ∧
      (initCustomizer a fs).2 = Except.error (.exc
        "Error: Output image file already exists! Use overwrite=True to overwrite.")) ∧
    (∀ a fs, (fs a.outputImagePath = none ∨ a.overwrite = true) →
      (initCustomizer a fs).1 = fs ∧
      ∃ cust, (initCustomizer a fs).2 = Except.ok cust) := by
  constructor
  · intro a fs hex hov
    simp only [initCustomizer]
    rw [if_pos ⟨hex, by simp [hov]⟩]
    exact ⟨rfl, rfl⟩
  · intro a fs h
    have hcond : ¬((fs a.outputImagePath).isSome = true ∧ ¬a.overwrite = true) := by
      rcases h with h | h
      · simp [h]
      · simp [h]
    simp only [initCustomizer]
    rw [if_neg hcond]
    exact ⟨rfl, _, rfl⟩

/-- Witness for C5: constructing over an existing "out.img" without overwrite
fails; constructing with no file at the output path succeeds. -/
theorem c5_init_witness :
    (initCustomizer ⟨"in.img", "out.img", "mnt", "cfg.yaml", false⟩
        (fun p => if p = "out.img" then some "existing" else none)).2 =
      Except.error (.exc
        "Error: Output image file already exists! Use overwrite=True to overwrite.") ∧
    ∃ cust, (initCustomizer ⟨"in.img", "out.img", "mnt", "cfg.yaml", false⟩
        (fun _ => none)).2 = Except.ok cust := by
  exact ⟨(c5_init_output_collision.1 ⟨"in.img", "out.img", "mnt", "cfg.yaml", false⟩
      (fun p => if p = "out.img" then some "existing" else none) rfl rfl).2,
    (c5_init_output_collision.2 ⟨"in.img", "out.img", "mnt", "cfg.yaml", false⟩
      (fun _ => none) (Or.inl rfl)).2⟩

/-- C6: install records `existed` as true exactly when a pre-existing
resolv.conf was successfully backed up; the injected file is the host's
resolv.conf; restore moves the backup back when `existed` is true and the
backup is present, and otherwise only deletes the injected file, leaving any
unrelated backup state untouched. -/
theorem c6_shim_install_restore (env : ShimEnv) (fs : ResolvFS)
    (hrm : env.rmOk = true) (hcp : env.cpHostOk = true)
    (hrrm : env.restoreRmOk = true) (hrmv : env.restoreMvOk = true) :
    ∃ fs1 existed, installResolvShim env fs = Except.ok (fs1, existed) ∧
      existed = (fs.resolv.isSome && env.backupCpOk) ∧
      fs1.resolv = some env.hostResolv ∧
      (existed = true → fs1.backup = fs.resolv) ∧
      (existed = false → fs1.backup = fs.backup) ∧
      (existed = true →
        restoreResolvConf env existed fs1 =
          Except.ok { resolv := fs.resolv, backup := none }) ∧
      (existed = false →
        restoreResolvConf env existed fs1 =
          Except.ok { resolv := none, backup := fs.backup }) := by
  cases hres : fs.resolv with
  | none =>
    refine ⟨{ fs with resolv := some env.hostResolv }, false, ?_, ?_, rfl, ?_, ?_, ?_, ?_⟩
    · unfold installResolvShim
      simp [hres, hcp]
    · simp [hres]
    · intro h; exact absurd h (by decide)
    · intro _; rfl
    · intro h; exact absurd h (by decide)
    · intro _
      unfold restoreResolvConf
      rw [if_neg (by simp)]
      rw [if_neg (by simp [hrrm])]
  | some v =>
    cases hbc : env.backupCpOk with
    | true =>
      refine ⟨{ resolv := some env.hostResolv, backup := some v }, true, ?_, ?_, rfl,
        ?_, ?_, ?_, ?_⟩
      · unfold installResolvShim
        simp [hres, hbc, hrm, hcp]
      · simp [hres, hbc]
      · intro _; simp [hres]
      · intro h; exact absurd h (by decide)
      · intro _
        unfold restoreResolvConf
        rw [if_pos (by simp), if_neg (by simp [hrrm]), if_neg (by simp [hrmv])]
      · intro h; exact absurd h (by decide)
    | false =>
      refine ⟨{ resolv := some env.hostResolv, backup := fs.backup }, false, ?_, ?_, rfl,
        ?_, ?_, ?_, ?_⟩
      · unfold installResolvShim
        simp [hres, hbc, hrm, hcp]
      · simp [hres, hbc]
      · intro h; exact absurd h (by decide)
      · intro _; rfl
      · intro h; exact absurd h (by decide)
      · intro _
        unfold restoreResolvConf
        rw [if_neg (by simp)]
        rw [if_neg (by simp [hrrm])]

/-- Witness for C6: a mounted image with an original resolv.conf, all
commands succeeding. -/
theorem c6_shim_witness :
    ∃ fs1 existed,
      installResolvShim ⟨true, true, true, true, true, "host-dns"⟩
        ⟨some "original-dns", none⟩ = Except.ok (fs1, existed) ∧
      existed = ((some "original-dns" : Option String).isSome && true) ∧
      fs1.resolv = some "host-dns" ∧
      (existed = true → fs1.backup = some "original-dns") ∧
      (existed = false → fs1.backup = none) ∧
      (existed = true →
        restoreResolvConf ⟨true, true, true, true, true, "host-dns"⟩ existed fs1 =
          Except.ok { resolv := some "original-dns", backup := none }) ∧
      (existed = false →
        restoreResolvConf ⟨true, true, true, true, true, "host-dns"⟩ existed fs1 =
          Except.ok { resolv := none, backup := none }) :=
  c6_shim_install_restore ⟨true, true, true, true, true, "host-dns"⟩
    ⟨some "original-dns", none⟩ rfl rfl rfl rfl

/-- C8: the artifact paths derived from base "out" are out.manifest,
out.filelist, out.sbom, out.sbom.spdx; but with sbom_log = None the SBOM log
path is the string "None" (str(None) is truthy, so the `or` default never
applies), not out.sbom.log as the spec states. -/
theorem c8_artifact_naming :
    (∀ base sbomLog,
      (deriveManifestPaths base sbomLog).manifestFile = base ++ ".manifest" ∧
      (deriveManifestPaths base sbomLog).filelistFile = base ++ ".filelist" ∧
      (deriveManifestPaths base sbomLog).sbomDocumentName = base ++ ".sbom" ∧
      (deriveManifestPaths base sbomLog).sbomFileName = base ++ ".sbom.spdx") ∧
    (deriveManifestPaths "out" none).sbomLog = "None" ∧
    (deriveManifestPaths "out" none).sbomLog ≠ "out.sbom.log" := by
  exact ⟨fun base sbomLog => ⟨rfl, rfl, rfl, rfl⟩, rfl, by decide⟩

/-- C7: finalization removes the pre-existing output file first and converts
the working image into the output path; but when the working image proves
non-removable, `os.remove` raises and the step fails instead of logging and
continuing (the exists-check warning in the code is unreachable for a failing
removal). When removal succeeds, the working file is gone afterwards. -/
theorem c7_finalize_nonremovable_working :
    (produceFinalImage cSample envNoRemove wFinalize).2 =
      Except.error (.exc "OSError: cannot remove modified image file") ∧
    (produceFinalImage cSample envNoRemove wFinalize).1.fs "out.img" = some "raw-bytes" ∧
    (produceFinalImage cSample envNoRemove wFinalize).1.fs "in.modifying" = some "raw-bytes" ∧
    (produceFinalImage cSample envGood wFinalize).2 = Except.ok () ∧
    (produceFinalImage cSample envGood wFinalize).1.fs "out.img" = some "raw-bytes" ∧
    (produceFinalImage cSample envGood wFinalize).1.fs "in.modifying" = none := by
  exact ⟨rfl, rfl, rfl, rfl, rfl, rfl⟩

/-- C9: with overwrite = true and the external tools fixed by an unchanged
mounted root, `create_manifest` succeeds and is idempotent: a second run on
the filesystem produced by the first leaves it unchanged and succeeds. -/
theorem c9_manifest_idempotent (env : ManifestEnv) (base : String) (log : Option String)
    (gs : Bool) (fs : FS)
    (h1 : env.dpkgErr = none) (h2 : env.snapErr = none)
    (h3 : env.findErr = none) (h4 : env.sortErr = none)
    (h5 : gs = true → (if env.cpcSbomAvailable then none else env.snapInstallErr) = none)
    (h6 : gs = true → env.sbomRc = 0) :
    (createManifest env base gs log true fs).2 = Except.ok () ∧
    createManifest env base gs log true (createManifest env base gs log true fs).1 =
      ((createManifest env base gs log true fs).1, Except.ok ()) := by
  have n1 := createManifest_overwrite_nf env base log gs fs h1 h2 h3 h4 h5 h6
  constructor
  · rw [n1]
  · rw [n1]
    have n2 := createManifest_overwrite_nf env base log gs
      (manifestNF env (deriveManifestPaths base log) gs fs) h1 h2 h3 h4 h5 h6
    rw [show ((manifestNF env (deriveManifestPaths base log) gs fs,
        Except.ok ()) : FS × Except PyErr Unit).1 =
      manifestNF env (deriveManifestPaths base log) gs fs from rfl]
    rw [n2, manifestNF_idem]

/-- Witness for C9: two runs over an empty filesystem with base "out". -/
theorem c9_manifest_idempotent_witness :
    (createManifest menvGood "out" false none true (fun _ => none)).2 = Except.ok () ∧
    createManifest menvGood "out" false none true
        (createManifest menvGood "out" false none true (fun _ => none)).1 =
      ((createManifest menvGood "out" false none true (fun _ => none)).1,
        Except.ok ()) :=
  c9_manifest_idempotent menvGood "out" none false (fun _ => none) rfl rfl rfl rfl
    (fun h => absurd h (by decide)) (fun h => absurd h (by decide))

/-- C10: `main` always passes generate_sbom = False to the manifest
generation, and with generate_sbom false `create_manifest` never writes the
SBOM file (a pre-existing one may only be removed) nor any path other than
the manifest and filelist artifacts, so B.sbom.spdx and B.sbom.log are never
produced by an end-to-end run. -/
theorem c10_no_sbom_generated :
    (∀ c : Customizer, (mainArgs c).generateSbom = false) ∧
    (∀ env base log ow fs,
        fs (base ++ ".sbom.spdx") = none →
        (createManifest env base false log ow fs).1 (base ++ ".sbom.spdx") = none) ∧
    (∀ env base log ow fs p,
        p ≠ base ++ ".manifest" → p ≠ base ++ ".filelist" → p ≠ base ++ ".sbom.spdx" →
        (createManifest env base false log ow fs).1 p = fs p) := by
  refine ⟨fun c => rfl, ?_, ?_⟩
  · intro env base log ow fs hnone
    have hms : (base ++ ".sbom.spdx") ≠ (base ++ ".manifest") := derived_ne (by decide)
    have hfs2 : (base ++ ".sbom.spdx") ≠ (base ++ ".filelist") := derived_ne (by decide)
    have hcc : (collisionChecks ow
        [base ++ ".manifest", base ++ ".filelist", base ++ ".sbom.spdx"] fs).1
        (base ++ ".sbom.spdx") = none :=
      collisionChecks_fst_none _ _ _ _ hnone
    unfold createManifest
    simp only [deriveManifestPaths]
    split
    · simpa using hcc
    · cases hd : env.dpkgErr with
      | some m => simpa [fsSet, hms] using hcc
      | none =>
        cases hs : env.snapErr with
        | some m => simpa [fsSet, hms] using hcc
        | none =>
          cases hf : env.findErr with
          | some m => simpa [fsSet, hms, hfs2] using hcc
          | none =>
            cases ho : env.sortErr with
            | some m => simpa [fsSet, hms, hfs2] using hcc
            | none => simpa [fsSet, hms, hfs2] using hcc
  · intro env base log ow fs p hp1 hp2 hp3
    exact createManifest_preserves env base log ow fs p hp1 hp2 hp3

/-- Witness for C10: concrete manifest run with no SBOM artifacts created. -/
theorem c10_no_sbom_witness :
    (mainArgs cSample).generateSbom = false ∧
    (createManifest menvGood "out" false none true (fun _ => none)).1 "out.sbom.spdx" =
      none ∧
    (createManifest menvGood "out" false none true (fun _ => none)).1 "out.sbom.log" =
      none := by
  refine ⟨c10_no_sbom_generated.1 cSample, ?_, ?_⟩
  · have h := c10_no_sbom_generated.2.1 menvGood "out" none true (fun _ => none) rfl
    rw [show ("out" : String) ++ ".sbom.spdx" = "out.sbom.spdx" from rfl] at h
    exact h
  · exact c10_no_sbom_generated.2.2 menvGood "out" none true (fun _ => none)
      "out.sbom.log" (by decide) (by decide) (by decide)

/-- C1 (amended): for every failure raised as a Python Exception during
delegation or manifest generation — excluding the artifact-collision abort,
which raises SystemExit and bypasses the handler — and provided the recovery
unmount and working-file removal succeed, the controller unmounts, deletes
the working image, and re-raises a single wrapped fatal error carrying the
original cause; the output image path is never created. -/
theorem c1_recovery_on_exception (c : Customizer) (env : Env) (w wF : World)
    (e : PyErr) (off : Nat)
    (hwork : w.fs c.modifiedImageFile = none)
    (hin : env.inputExists = true) (hst : env.stageOk = true)
    (hoff : getPartitionOffset env.fdiskOutput = Except.ok off)
    (hm : env.mountOk = true) (hshim : env.installShimOk = true)
    (hfail : doChrootfs c env (mainArgs c) (setupWorld c env w) = (wF, Except.error e))
    (hexc : isException e = true)
    (humount : env.umountOk = true) (hrm : env.workingRemoveOk = true)
    (hout : w.fs c.outputImagePath = none)
    (hom : c.outputImagePath ≠ c.modifiedImageFile)
    (hne1 : c.outputImagePath ≠ c.outputFilesName ++ ".manifest")
    (hne2 : c.outputImagePath ≠ c.outputFilesName ++ ".filelist")
    (hne3 : c.outputImagePath ≠ c.outputFilesName ++ ".sbom.spdx") :
    (mainM c env w).2 =
      Except.error (.wrapped ("Chimg logic failed: " ++ errMsg e) e) ∧
    (mainM c env w).1.mounted = false ∧
    (mainM c env w).1.fs c.modifiedImageFile = none ∧
    (mainM c env w).1.fs c.outputImagePath = none := by
  have hsetup := setup_ok c env w off hwork hin hst hoff hm hshim
  have hwF_out : wF.fs c.outputImagePath = none := by
    have hpres := doChrootfs_fs_preserves c env (mainArgs c) (setupWorld c env w)
      c.outputImagePath rfl hne1 hne2 hne3
    rw [hfail] at hpres
    have hsw : (setupWorld c env w).fs c.outputImagePath = none := by
      simp [setupWorld, fsSet, hom, hout]
    exact hpres.trans hsw
  unfold mainM
  rw [hsetup]
  simp only [andThenW]
  rw [hfail]
  unfold unmountImage removeExistingModifiedImage werr wok
  by_cases hcase : (wF.fs c.modifiedImageFile).isSome
  · simp only [hexc, if_true, humount, hrm, hcase, not_true_eq_false, if_false,
      ite_false, ite_true]
    simp [fsDel, hom, Ne.symm hom, hwF_out]
  · simp only [hexc, if_true, humount, hrm, hcase, not_true_eq_false, if_false,
      ite_false, ite_true]
    simp [Option.not_isSome_iff_eq_none.mp hcase, hwF_out]

/-- Witness for C1: the delegate raising "boom" under an otherwise healthy
environment triggers the full recovery. -/
theorem c1_recovery_witness :
    (mainM cSample envDelegateFail wClean).2 =
      Except.error (.wrapped "Chimg logic failed: boom" (.exc "boom")) ∧
    (mainM cSample envDelegateFail wClean).1.mounted = false ∧
    (mainM cSample envDelegateFail wClean).1.fs "in.modifying" = none ∧
    (mainM cSample envDelegateFail wClean).1.fs "out.img" = none := by
  have h := c1_recovery_on_exception cSample envDelegateFail wClean
    (setupWorld cSample envDelegateFail wClean) (.exc "boom") 1048576
    rfl rfl rfl rfl rfl rfl rfl rfl rfl rfl rfl (by decide) (by decide) (by decide)
    (by decide)
  exact h

/-- C1 counterexample: an artifact collision (stale "out.manifest", overwrite
false) during manifest generation aborts via SystemExit, which the recovery
handler does not catch: the image stays mounted, the working image is not
deleted, and no wrapped error is raised — refuting the claim as stated. -/
theorem c1_collision_counterexample :
    (mainM cSample envGood wSample).2 = Except.error (.systemExit 1) ∧
    (mainM cSample envGood wSample).1.mounted = true ∧
    (mainM cSample envGood wSample).1.fs "in.modifying" = some "staged" := by
  exact ⟨rfl, rfl, rfl⟩

/-- C2 (amended): the DNS shim restoration runs only on the success path.
When the delegate raises (and the recovery unmount and removal succeed), the
restore step never runs — the injected file is discarded together with the
deleted working image rather than restored; on a successful delegation and
manifest generation, the restore step always runs. -/
theorem c2_shim_restore_paths :
    (∀ c env w off m,
      w.fs c.modifiedImageFile = none →
      env.inputExists = true → env.stageOk = true →
      getPartitionOffset env.fdiskOutput = Except.ok off →
      env.mountOk = true → env.installShimOk = true →
      env.configExists = true → env.rootfsExists = true →
      env.delegateError = some m →
      env.umountOk = true → env.workingRemoveOk = true →
      (mainM c env w).1.shimRestoreRan = w.shimRestoreRan ∧
      (mainM c env w).1.mounted = false ∧
      (mainM c env w).1.fs c.modifiedImageFile = none ∧
      (mainM c env w).2 =
        Except.error (.wrapped ("Chimg logic failed: " ++ m) (.exc m))) ∧
    (∀ c env w off,
      w.fs c.modifiedImageFile = none →
      env.inputExists = true → env.stageOk = true →
      getPartitionOffset env.fdiskOutput = Except.ok off →
      env.mountOk = true → env.installShimOk = true →
      (doChrootfs c env (mainArgs c) (setupWorld c env w)).2 = Except.ok () →
      (mainM c env w).1.shimRestoreRan = true) := by
  constructor
  · intro c env w off m hwork hin hst hoff hm hshim hconf hroot hdel humount hrm
    have hsetup := setup_ok c env w off hwork hin hst hoff hm hshim
    have hdc := doChrootfs_delegate_fail c env (mainArgs c) (setupWorld c env w) m
      hconf hroot hdel
    unfold mainM
    rw [hsetup]
    simp only [andThenW]
    rw [hdc]
    unfold unmountImage removeExistingModifiedImage werr wok
    simp only [isException, if_true, humount, hrm, not_true_eq_false, if_false,
      ite_false, ite_true, setupWorld, fsSet]
    refine ⟨rfl, rfl, ?_, rfl⟩
    · simp [fsDel]
  · intro c env w off hwork hin hst hoff hm hshim hok
    have hsetup := setup_ok c env w off hwork hin hst hoff hm hshim
    unfold mainM
    rw [hsetup]
    simp only [andThenW]
    rcases hdc : doChrootfs c env (mainArgs c) (setupWorld c env w) with ⟨w1, r⟩
    rw [hdc] at hok
    cases r with
    | ok a => exact createFinalImage_restoreRan c env w1
    | error e => exact absurd hok (by simp)

/-- Witness for C2: concrete runs on both paths. -/
theorem c2_shim_restore_witness :
    ((mainM cSample envDelegateFail wClean).1.shimRestoreRan = wClean.shimRestoreRan ∧
     (mainM cSample envDelegateFail wClean).1.mounted = false ∧
     (mainM cSample envDelegateFail wClean).1.fs cSample.modifiedImageFile = none ∧
     (mainM cSample envDelegateFail wClean).2 =
       Except.error (.wrapped ("Chimg logic failed: " ++ "boom") (.exc "boom"))) ∧
    (mainM cSample envGood wClean).1.shimRestoreRan = true := by
  exact ⟨c2_shim_restore_paths.1 cSample envDelegateFail wClean 1048576 "boom"
      rfl rfl rfl rfl rfl rfl rfl rfl rfl rfl rfl,
    c2_shim_restore_paths.2 cSample envGood wClean 1048576 rfl rfl rfl rfl rfl rfl rfl⟩

/-- C2 counterexample: the delegate fails and a wrapped fatal error is raised,
yet the shim restore step never ran — refuting "restoration runs even when
the delegate invocation fails" as stated. -/
theorem c2_no_restore_counterexample :
    (mainM cSample envDelegateFail wClean).1.shimRestoreRan = false ∧
    (mainM cSample envDelegateFail wClean).2 =
      Except.error (.wrapped "Chimg logic failed: boom" (.exc "boom")) := by
  exact ⟨rfl, rfl⟩

/-- C3 (amended): if the unmount command fails during failure recovery, the
job crashes on that unmount failure: the CalledProcessError from umount
propagates in place of the original delegation error, the working image is
not removed, and the wrapped fatal error is never raised; nothing is logged
as a warning. -/
theorem c3_recovery_umount_failure (c : Customizer) (env : Env) (w : World)
    (off : Nat) (m : String)
    (hwork : w.fs c.modifiedImageFile = none)
    (hin : env.inputExists = true) (hst : env.stageOk = true)
    (hoff : getPartitionOffset env.fdiskOutput = Except.ok off)
    (hm : env.mountOk = true) (hshim : env.installShimOk = true)
    (hconf : env.configExists = true) (hroot : env.rootfsExists = true)
    (hdel : env.delegateError = some m)
    (humount : env.umountOk = false) :
    (mainM c env w).2 = Except.error (.exc "CalledProcessError: umount") ∧
    (mainM c env w).1.fs c.modifiedImageFile = some "staged" ∧
    (∀ msg cause, (mainM c env w).2 ≠ Except.error (.wrapped msg cause)) := by
  have hsetup := setup_ok c env w off hwork hin hst hoff hm hshim
  have hdc := doChrootfs_delegate_fail c env (mainArgs c) (setupWorld c env w) m
    hconf hroot hdel
  unfold mainM
  rw [hsetup]
  simp only [andThenW]
  rw [hdc]
  unfold unmountImage werr wok
  simp only [isException, if_true, humount, not_false_eq_true, if_true, ite_true,
    setupWorld, fsSet]
  refine ⟨rfl, by simp [fsSet], ?_⟩
  · intro msg cause h
    simp at h

/-- Witness for C3: delegate raises "boom" and the recovery umount fails. -/
theorem c3_recovery_umount_witness :
    (mainM cSample envUmountFail wClean).2 =
      Except.error (.exc "CalledProcessError: umount") ∧
    (mainM cSample envUmountFail wClean).1.fs cSample.modifiedImageFile =
      some "staged" ∧
    (∀ msg cause, (mainM cSample envUmountFail wClean).2 ≠
      Except.error (.wrapped msg cause)) := by
  exact c3_recovery_umount_failure cSample envUmountFail wClean 1048576 "boom"
    rfl rfl rfl rfl rfl rfl rfl rfl rfl rfl

/-- C3 counterexample: with the recovery unmount failing, the job crashes
with the umount CalledProcessError (not the original delegation error, which
is masked), the image stays mounted and the working image is not deleted —
refuting the claim as stated. -/
theorem c3_umount_masks_counterexample :
    (mainM cSample envUmountFail wClean).2 =
      Except.error (.exc "CalledProcessError: umount") ∧
    (mainM cSample envUmountFail wClean).1.fs "in.modifying" = some "staged" ∧
    (mainM cSample envUmountFail wClean).1.mounted = true := by
  exact ⟨rfl, rfl, rfl⟩

end ImageSauce
